import Mathlib

/-!
Verification of the GTK4 event-loop tutorial (src/main.rs).

The repository demonstrates four click strategies for a button whose
handler performs a 10-second unit of work:

* `build_app_with_stuck_behavior`: the click handler sleeps inline on the
  dispatcher (main-loop) thread;
* `build_app_with_new_thread`: the click handler spawns an OS thread;
* `build_app_with_new_thead_and_button_disable` ("gated offload"): the
  click handler spawns an OS thread; the worker sends `false` over a
  `MainContext::channel`, sleeps 10 s, then sends `true`; a receiver
  attached to the main context applies each message to the button's
  `sensitive` flag through a weak reference, returning `Continue(false)`
  (detach) when the weak reference is dead;
* `build_app_with_async_button` ("cooperative suspend"): the click handler
  spawns a local async task on the default `MainContext` that disables the
  button, awaits `timeout_future_seconds(10)`, then re-enables it; the
  task captures the button through `clone!(@weak ...)`.

Each strategy is embedded as a small labelled transition system over an
explicit state record; the dispatcher is single-threaded, so a trace is a
list of atomic events (clicks, worker-thread actions, channel deliveries,
clock ticks) applied by a fold.  Ghost fields (`sendLog`, `consumedLog`,
`handlerLog`) record the history needed to state ordering properties; they
never influence the behaviour of a step.
-/

/-- Duration of the simulated long-running work,
`Duration::from_secs(10)` in src/main.rs (measured in seconds). -/
def timedWorkSecs : Nat := 10

/-! ## Gated offload: `build_app_with_new_thead_and_button_disable`

The click handler (src/main.rs lines 89-100) clones the channel sender and
spawns a worker thread whose body is: `sender.send(false).expect(..)`,
`sleep(10 s)`, `sender.send(true).expect(..)`.  The receiver is attached
to the main context (lines 103-112) with a closure built by
`clone!(@weak button => @default-return Continue(false), move |b| {
button.set_sensitive(b); Continue(true) })`. -/

/-- Program counter of one spawned worker thread of the gated-offload
strategy.  The worker's code is a straight line: send `false`, sleep,
send `true`; `expect` on a failed send aborts (panics) the worker. -/
inductive PC
  | sendingDisable
  | working
  | sendingEnable
  | done
  | panickedAtDisable
  | panickedAtEnable
deriving DecidableEq

/-- The messages a gated-offload worker has already pushed into the
channel, determined by its program counter. -/
def sentSoFar : PC → List Bool
  | .sendingDisable => []
  | .working => [false]
  | .sendingEnable => [false]
  | .done => [false, true]
  | .panickedAtDisable => []
  | .panickedAtEnable => [false]

/-- State of the gated-offload demo: the button (`sensitive`, alive), the
single `MainContext::channel` (receiver attachment flag and FIFO queue of
pending messages tagged with the index of the sending worker), the spawned
workers (index in the list = worker id, value = program counter), a count
of OS threads ever spawned, and ghost history fields. -/
structure GatedState where
  sensitive : Bool
  buttonAlive : Bool
  receiverAttached : Bool
  queue : List (Nat × Bool)
  workers : List PC
  osThreads : Nat
  handlerLog : List (Nat × Bool)
  consumedLog : List (Nat × Bool)
  sendLog : List (Nat × Bool)
deriving DecidableEq

/-- Initial state: button built sensitive and alive, channel created and
receiver attached, no worker spawned, no history. -/
def initGated : GatedState :=
  { sensitive := true, buttonAlive := true, receiverAttached := true,
    queue := [], workers := [], osThreads := 0,
    handlerLog := [], consumedLog := [], sendLog := [] }

/-- Atomic events of the gated-offload demo: a user click, one step of
worker number `i` (its next send, or the end of its sleep), the main loop
delivering the head of the channel queue to the attached closure, and the
destruction of the button (window teardown). -/
inductive GatedEvent
  | click
  | workerStep (i : Nat)
  | deliver
  | destroyButton
deriving DecidableEq

/-- Error type of `glib::Sender::send`: the only failure is a channel
whose receiver side is gone. -/
inductive SendError
  | channelClosed
deriving DecidableEq

/-- `sender.send(m)` on the `MainContext::channel`: appends to the FIFO
queue while the receiver is attached, fails with `ChannelClosed` once the
receiver has been torn down. -/
def channelSendRes (attached : Bool) (q : List (Nat × Bool)) (m : Nat × Bool) :
    Except SendError (List (Nat × Bool)) :=
  if attached then .ok (q ++ [m]) else .error .channelClosed

/-- Body of the `connect_clicked` closure of the gated-offload strategy
(src/main.rs lines 89-100): clone the sender and spawn the worker thread.
It touches neither the button nor the channel queue. -/
def gatedOnClicked (s : GatedState) : GatedState :=
  { s with workers := s.workers ++ [PC.sendingDisable],
           osThreads := s.osThreads + 1 }

/-- The closure attached to the receiver (src/main.rs lines 104-110):
upgrade the weak reference to the button; on success run the body
(`button.set_sensitive(enable_button)`) and return `Continue(true)`; on a
dead weak reference skip the body and return the default
`Continue(false)`.  The returned boolean is the `Continue` value. -/
def gatedAttachClosure (s : GatedState) (m : Nat × Bool) : GatedState × Bool :=
  if s.buttonAlive then
    ({ s with sensitive := m.2, handlerLog := s.handlerLog ++ [m] }, true)
  else
    (s, false)

/-- One atomic step of the gated-offload demo.  A click is only possible
on a live, sensitive button (GTK delivers no click to an insensitive
widget).  A `deliver` step pops the head of the queue and runs the
attached closure; the closure's `Continue` return value becomes the new
attachment state of the receiver, exactly as in the glib main loop. -/
def stepGated (s : GatedState) : GatedEvent → GatedState
  | .click =>
      if s.sensitive && s.buttonAlive then gatedOnClicked s else s
  | .workerStep i =>
      match s.workers[i]? with
      | some .sendingDisable =>
          match channelSendRes s.receiverAttached s.queue (i, false) with
          | .ok q =>
              { s with queue := q, sendLog := s.sendLog ++ [(i, false)],
                       workers := s.workers.set i .working }
          | .error _ => { s with workers := s.workers.set i .panickedAtDisable }
      | some .working => { s with workers := s.workers.set i .sendingEnable }
      | some .sendingEnable =>
          match channelSendRes s.receiverAttached s.queue (i, true) with
          | .ok q =>
              { s with queue := q, sendLog := s.sendLog ++ [(i, true)],
                       workers := s.workers.set i .done }
          | .error _ => { s with workers := s.workers.set i .panickedAtEnable }
      | _ => s
  | .deliver =>
      if s.receiverAttached then
        match s.queue with
        | [] => s
        | m :: rest =>
            let r := gatedAttachClosure s m
            { r.1 with queue := rest, receiverAttached := r.2,
                       consumedLog := s.consumedLog ++ [m] }
      else s
  | .destroyButton => { s with buttonAlive := false }

/-- Run the gated-offload demo on a trace of events from the initial
state. -/
def runGated (t : List GatedEvent) : GatedState :=
  t.foldl stepGated initGated

/-- Number of TimedWork units currently in flight: workers inside the
10-second sleep. -/
def inFlightTimedWork (s : GatedState) : Nat :=
  s.workers.countP (fun pc => decide (pc = PC.working))

/-- C1: the gated-offload strategy does NOT serialize TimedWork.  Two
rapid clicks, each arriving before either worker's disable message has
been delivered, leave two workers simultaneously inside the 10-second
sleep (and two OS threads spawned): the button was still sensitive at the
second click because the disable is only sent from the worker side.  This
evaluates the embedded code at the failing input. -/
theorem gated_c1_two_timedwork_in_flight :
    inFlightTimedWork
      (runGated [.click, .click, .workerStep 0, .workerStep 1]) = 2 ∧
    (runGated [.click, .click, .workerStep 0, .workerStep 1]).osThreads = 2 ∧
    (runGated [.click, .click]).sensitive = true := by
  decide

/-- C2 counterexample: the claim says that after the button is destroyed a
delivered message leaves the receiver registered.  On the code the
attached closure returns the default `Continue(false)` when the weak
reference is dead, so the very first delivery after destruction detaches
the receiver: attached before the delivery, detached after it, handler
body never run. -/
theorem gated_c2_receiver_detached_counterexample :
    (runGated [.click, .workerStep 0, .destroyButton]).receiverAttached = true ∧
    (runGated [.click, .workerStep 0, .destroyButton, .deliver]).receiverAttached
      = false ∧
    (runGated [.click, .workerStep 0, .destroyButton, .deliver]).handlerLog = [] := by
  decide

/-- C2 amended: when the button no longer exists, delivering a message
skips the per-message handler body as a no-op (no error, `sensitive` and
`handlerLog` untouched) and the receiver is detached (the closure returns
the default `Continue(false)`), rather than remaining registered. -/
theorem gated_c2_dead_button_skips_handler_and_detaches
    (s : GatedState) (m : Nat × Bool) (rest : List (Nat × Bool))
    (hr : s.receiverAttached = true) (hd : s.buttonAlive = false)
    (hq : s.queue = m :: rest) :
    stepGated s .deliver =
      { s with queue := rest, receiverAttached := false,
               consumedLog := s.consumedLog ++ [m] } := by
  simp [stepGated, hq, hr, gatedAttachClosure, hd]

/-- C2 amended, witness: the detachment theorem applied to a concrete
state with a dead button and one pending message. -/
theorem gated_c2_dead_button_skips_handler_and_detaches_witness :
    stepGated
      { sensitive := false, buttonAlive := false, receiverAttached := true,
        queue := [(0, true)], workers := [PC.sendingEnable], osThreads := 1,
        handlerLog := [(0, false)], consumedLog := [(0, false)],
        sendLog := [(0, false), (0, true)] } .deliver =
      { sensitive := false, buttonAlive := false, receiverAttached := false,
        queue := [], workers := [PC.sendingEnable], osThreads := 1,
        handlerLog := [(0, false)], consumedLog := [(0, false), (0, true)],
        sendLog := [(0, false), (0, true)] } :=
  gated_c2_dead_button_skips_handler_and_detaches _ _ _ rfl rfl rfl

/-- C3: in the gated-offload strategy the activation callback only spawns
the worker thread; it is the worker that then sends `false` into the
channel, sleeps, and sends `true`.  Conjunct 1: a click changes neither
`sensitive` nor the channel (the record update touches only `workers` and
`osThreads`), so the disable is not performed synchronously in the
activation callback.  Conjuncts 2-4: the spawned worker first sends
`(i, false)`, then finishes its sleep without sending, then sends
`(i, true)` and terminates. -/
theorem gated_c3_worker_side_disable :
    (∀ s : GatedState, s.sensitive = true → s.buttonAlive = true →
      stepGated s .click =
        { s with workers := s.workers ++ [PC.sendingDisable],
                 osThreads := s.osThreads + 1 }) ∧
    (∀ (s : GatedState) (i : Nat), s.workers[i]? = some PC.sendingDisable →
      s.receiverAttached = true →
      stepGated s (.workerStep i) =
        { s with queue := s.queue ++ [(i, false)],
                 sendLog := s.sendLog ++ [(i, false)],
                 workers := s.workers.set i PC.working }) ∧
    (∀ (s : GatedState) (i : Nat), s.workers[i]? = some PC.working →
      stepGated s (.workerStep i) =
        { s with workers := s.workers.set i PC.sendingEnable }) ∧
    (∀ (s : GatedState) (i : Nat), s.workers[i]? = some PC.sendingEnable →
      s.receiverAttached = true →
      stepGated s (.workerStep i) =
        { s with queue := s.queue ++ [(i, true)],
                 sendLog := s.sendLog ++ [(i, true)],
                 workers := s.workers.set i PC.done }) := by
  refine ⟨?_, ?_, ?_, ?_⟩
  · intro s hs ha
    simp [stepGated, hs, ha, gatedOnClicked]
  · intro s i hw hr
    simp [stepGated, hw, hr, channelSendRes]
  · intro s i hw
    simp [stepGated, hw]
  · intro s i hw hr
    simp [stepGated, hw, hr, channelSendRes]

/-- C3, witness: each conjunct applied to the concrete run of a single
click followed by the three worker steps from the initial state. -/
theorem gated_c3_worker_side_disable_witness :
    stepGated initGated .click =
      { sensitive := true, buttonAlive := true, receiverAttached := true,
        queue := [], workers := [PC.sendingDisable], osThreads := 1,
        handlerLog := [], consumedLog := [], sendLog := [] } ∧
    stepGated
      { sensitive := true, buttonAlive := true, receiverAttached := true,
        queue := [], workers := [PC.sendingDisable], osThreads := 1,
        handlerLog := [], consumedLog := [], sendLog := [] } (.workerStep 0) =
      { sensitive := true, buttonAlive := true, receiverAttached := true,
        queue := [(0, false)], workers := [PC.working], osThreads := 1,
        handlerLog := [], consumedLog := [], sendLog := [(0, false)] } ∧
    stepGated
      { sensitive := true, buttonAlive := true, receiverAttached := true,
        queue := [(0, false)], workers := [PC.working], osThreads := 1,
        handlerLog := [], consumedLog := [], sendLog := [(0, false)] }
      (.workerStep 0) =
      { sensitive := true, buttonAlive := true, receiverAttached := true,
        queue := [(0, false)], workers := [PC.sendingEnable], osThreads := 1,
        handlerLog := [], consumedLog := [], sendLog := [(0, false)] } ∧
    stepGated
      { sensitive := true, buttonAlive := true, receiverAttached := true,
        queue := [(0, false)], workers := [PC.sendingEnable], osThreads := 1,
        handlerLog := [], consumedLog := [], sendLog := [(0, false)] }
      (.workerStep 0) =
      { sensitive := true, buttonAlive := true, receiverAttached := true,
        queue := [(0, false), (0, true)], workers := [PC.done], osThreads := 1,
        handlerLog := [], consumedLog := [], sendLog := [(0, false), (0, true)] } :=
  ⟨gated_c3_worker_side_disable.1 _ rfl rfl,
   gated_c3_worker_side_disable.2.1 _ 0 rfl rfl,
   gated_c3_worker_side_disable.2.2.1 _ 0 rfl,
   gated_c3_worker_side_disable.2.2.2 _ 0 rfl rfl⟩

/-- C5: once the dispatcher-side receiver has been torn down, a send
fails with `ChannelClosed` (conjunct 1); the worker's `expect` turns that
failure into a panic: the worker aborts at its current send (conjuncts
2-3; the state update touches only that worker's program counter, so the
failure is neither ignored nor logged into the channel), and a panicked
worker never takes another step (conjuncts 4-5). -/
theorem gated_c5_closed_channel_send_panics :
    (∀ (q : List (Nat × Bool)) (m : Nat × Bool),
      channelSendRes false q m = .error .channelClosed) ∧
    (∀ (s : GatedState) (i : Nat), s.receiverAttached = false →
      s.workers[i]? = some PC.sendingDisable →
      stepGated s (.workerStep i) =
        { s with workers := s.workers.set i PC.panickedAtDisable }) ∧
    (∀ (s : GatedState) (i : Nat), s.receiverAttached = false →
      s.workers[i]? = some PC.sendingEnable →
      stepGated s (.workerStep i) =
        { s with workers := s.workers.set i PC.panickedAtEnable }) ∧
    (∀ (s : GatedState) (i : Nat), s.workers[i]? = some PC.panickedAtDisable →
      stepGated s (.workerStep i) = s) ∧
    (∀ (s : GatedState) (i : Nat), s.workers[i]? = some PC.panickedAtEnable →
      stepGated s (.workerStep i) = s) := by
  refine ⟨?_, ?_, ?_, ?_, ?_⟩
  · intro q m; rfl
  · intro s i hr hw
    simp [stepGated, hw, hr, channelSendRes]
  · intro s i hr hw
    simp [stepGated, hw, hr, channelSendRes]
  · intro s i hw
    simp [stepGated, hw]
  · intro s i hw
    simp [stepGated, hw]

/-- C5, witness: the closed-channel behaviour at a concrete state whose
receiver is detached and whose four workers sit at each relevant program
counter. -/
theorem gated_c5_closed_channel_send_panics_witness :
    channelSendRes false [] (7, true) = .error .channelClosed ∧
    stepGated
      { sensitive := false, buttonAlive := false, receiverAttached := false,
        queue := [], osThreads := 4,
        workers := [PC.sendingDisable, PC.sendingEnable,
                    PC.panickedAtDisable, PC.panickedAtEnable],
        handlerLog := [], consumedLog := [], sendLog := [] } (.workerStep 0) =
      { sensitive := false, buttonAlive := false, receiverAttached := false,
        queue := [], osThreads := 4,
        workers := [PC.panickedAtDisable, PC.sendingEnable,
                    PC.panickedAtDisable, PC.panickedAtEnable],
        handlerLog := [], consumedLog := [], sendLog := [] } ∧
    stepGated
      { sensitive := false, buttonAlive := false, receiverAttached := false,
        queue := [], osThreads := 4,
        workers := [PC.sendingDisable, PC.sendingEnable,
                    PC.panickedAtDisable, PC.panickedAtEnable],
        handlerLog := [], consumedLog := [], sendLog := [] } (.workerStep 1) =
      { sensitive := false, buttonAlive := false, receiverAttached := false,
        queue := [], osThreads := 4,
        workers := [PC.sendingDisable, PC.panickedAtEnable,
                    PC.panickedAtDisable, PC.panickedAtEnable],
        handlerLog := [], consumedLog := [], sendLog := [] } ∧
    stepGated
      { sensitive := false, buttonAlive := false, receiverAttached := false,
        queue := [], osThreads := 4,
        workers := [PC.sendingDisable, PC.sendingEnable,
                    PC.panickedAtDisable, PC.panickedAtEnable],
        handlerLog := [], consumedLog := [], sendLog := [] } (.workerStep 2) =
      { sensitive := false, buttonAlive := false, receiverAttached := false,
        queue := [], osThreads := 4,
        workers := [PC.sendingDisable, PC.sendingEnable,
                    PC.panickedAtDisable, PC.panickedAtEnable],
        handlerLog := [], consumedLog := [], sendLog := [] } ∧
    stepGated
      { sensitive := false, buttonAlive := false, receiverAttached := false,
        queue := [], osThreads := 4,
        workers := [PC.sendingDisable, PC.sendingEnable,
                    PC.panickedAtDisable, PC.panickedAtEnable],
        handlerLog := [], consumedLog := [], sendLog := [] } (.workerStep 3) =
      { sensitive := false, buttonAlive := false, receiverAttached := false,
        queue := [], osThreads := 4,
        workers := [PC.sendingDisable, PC.sendingEnable,
                    PC.panickedAtDisable, PC.panickedAtEnable],
        handlerLog := [], consumedLog := [], sendLog := [] } :=
  ⟨gated_c5_closed_channel_send_panics.1 [] (7, true),
   gated_c5_closed_channel_send_panics.2.1 _ 0 rfl rfl,
   gated_c5_closed_channel_send_panics.2.2.1 _ 1 rfl rfl,
   gated_c5_closed_channel_send_panics.2.2.2.1 _ 2 rfl,
   gated_c5_closed_channel_send_panics.2.2.2.2 _ 3 rfl⟩

/-- The payload sequence a given sender contributed to a tagged message
list, in list order. -/
def senderLog (i : Nat) (l : List (Nat × Bool)) : List Bool :=
  (l.filter (fun m => m.1 == i)).map Prod.snd

/-- The messages already sent by an optional worker program counter:
nothing for a worker slot that does not exist. -/
def pcSent : Option PC → List Bool
  | some pc => sentSoFar pc
  | none => []

theorem senderLog_append (i : Nat) (l₁ l₂ : List (Nat × Bool)) :
    senderLog i (l₁ ++ l₂) = senderLog i l₁ ++ senderLog i l₂ := by
  simp [senderLog, List.filter_append]

theorem senderLog_self (i : Nat) (b : Bool) :
    senderLog i [(i, b)] = [b] := by
  simp [senderLog]

theorem senderLog_other (i j : Nat) (b : Bool) (h : j ≠ i) :
    senderLog i [(j, b)] = [] := by
  simp [senderLog, h]

/-- History invariant of the gated-offload system: the send history is
the consumed history plus the pending queue; while the receiver is
attached the handler has run on exactly the consumed messages (and in
general on a prefix of them, since a dead-button delivery consumes without
handling and detaches); and each worker's contribution to the send
history is exactly what its program counter says it has sent. -/
def GatedWf (s : GatedState) : Prop :=
  s.sendLog = s.consumedLog ++ s.queue ∧
  (s.receiverAttached = true → s.handlerLog = s.consumedLog) ∧
  s.handlerLog <+: s.consumedLog ∧
  ∀ i : Nat, senderLog i s.sendLog = pcSent s.workers[i]?

/-- A successful send by worker `i` preserves the history invariant:
the queue and the send log grow by the same tagged message and the
sender's program counter advances by exactly that message. -/
theorem gatedWf_send (s : GatedState) (i : Nat) (b : Bool) (pcOld pcNew : PC)
    (h : GatedWf s) (hw : s.workers[i]? = some pcOld)
    (hsent : sentSoFar pcNew = sentSoFar pcOld ++ [b]) :
    GatedWf { s with queue := s.queue ++ [(i, b)],
                     sendLog := s.sendLog ++ [(i, b)],
                     workers := s.workers.set i pcNew } := by
  obtain ⟨h1, h2, h3, h4⟩ := h
  have hlt : i < s.workers.length := by
    rcases List.getElem?_eq_some.1 hw with ⟨hlt, _⟩
    exact hlt
  refine ⟨?_, h2, h3, ?_⟩
  · simp [h1, List.append_assoc]
  · intro j
    by_cases hj : j = i
    · subst hj
      rw [senderLog_append, h4 j, List.getElem?_set_self hlt, hw]
      simp [pcSent, hsent, senderLog_self]
    · rw [senderLog_append, senderLog_other j i b (fun hc => hj hc.symm),
        List.append_nil, h4 j, List.getElem?_set_ne (fun hc => hj hc.symm)]

/-- Advancing a worker's program counter without a send (the end of its
sleep, or a panic) preserves the history invariant when the counter
change does not alter what the worker has sent. -/
theorem gatedWf_setPC (s : GatedState) (i : Nat) (pcOld pcNew : PC)
    (h : GatedWf s) (hw : s.workers[i]? = some pcOld)
    (hsent : sentSoFar pcNew = sentSoFar pcOld) :
    GatedWf { s with workers := s.workers.set i pcNew } := by
  obtain ⟨h1, h2, h3, h4⟩ := h
  have hlt : i < s.workers.length := by
    rcases List.getElem?_eq_some.1 hw with ⟨hlt, _⟩
    exact hlt
  refine ⟨h1, h2, h3, ?_⟩
  intro j
  by_cases hj : j = i
  · subst hj
    rw [h4 j, List.getElem?_set_self hlt, hw]
    simp [pcSent, hsent]
  · rw [h4 j, List.getElem?_set_ne (fun hc => hj hc.symm)]

/-- Every step of the gated-offload system preserves the history
invariant. -/
theorem gatedWf_step (s : GatedState) (e : GatedEvent) (h : GatedWf s) :
    GatedWf (stepGated s e) := by
  obtain ⟨h1, h2, h3, h4⟩ := h
  cases e with
  | click =>
      by_cases hc : (s.sensitive && s.buttonAlive) = true
      · have hstep : stepGated s .click =
            { s with workers := s.workers ++ [PC.sendingDisable],
                     osThreads := s.osThreads + 1 } := by
          simp [stepGated, hc, gatedOnClicked]
        rw [hstep]
        refine ⟨h1, h2, h3, ?_⟩
        intro j
        rcases lt_trichotomy j s.workers.length with hlt | heq | hgt
        · rw [List.getElem?_append_left hlt]
          exact h4 j
        · have hnone : s.workers[j]? = none := List.getElem?_eq_none (by omega)
          have happ : (s.workers ++ [PC.sendingDisable])[j]? = some PC.sendingDisable := by
            rw [heq]
            simp
          rw [happ]
          have h0 := h4 j
          rw [hnone] at h0
          simpa [pcSent, sentSoFar] using h0
        · have hnone : s.workers[j]? = none := List.getElem?_eq_none (by omega)
          have happ : (s.workers ++ [PC.sendingDisable])[j]? = none := by
            refine List.getElem?_eq_none ?_
            simp only [List.length_append, List.length_cons, List.length_nil]
            omega
          rw [happ]
          have h0 := h4 j
          rw [hnone] at h0
          exact h0
      · have hstep : stepGated s .click = s := by
          simp [stepGated, hc]
        rw [hstep]
        exact ⟨h1, h2, h3, h4⟩
  | workerStep i =>
      rcases hw : s.workers[i]? with _ | pc
      · have hstep : stepGated s (.workerStep i) = s := by
          simp [stepGated, hw]
        rw [hstep]
        exact ⟨h1, h2, h3, h4⟩
      · cases pc with
        | sendingDisable =>
            by_cases hr : s.receiverAttached = true
            · have hstep : stepGated s (.workerStep i) =
                  { s with queue := s.queue ++ [(i, false)],
                           sendLog := s.sendLog ++ [(i, false)],
                           workers := s.workers.set i PC.working } := by
                simp [stepGated, hw, channelSendRes, hr]
              rw [hstep]
              exact gatedWf_send s i false .sendingDisable .working ⟨h1, h2, h3, h4⟩ hw rfl
            · have hr' : s.receiverAttached = false := by simpa using hr
              have hstep : stepGated s (.workerStep i) =
                  { s with workers := s.workers.set i PC.panickedAtDisable } := by
                simp [stepGated, hw, channelSendRes, hr']
              rw [hstep]
              exact gatedWf_setPC s i .sendingDisable .panickedAtDisable ⟨h1, h2, h3, h4⟩ hw rfl
        | working =>
            have hstep : stepGated s (.workerStep i) =
                { s with workers := s.workers.set i PC.sendingEnable } := by
              simp [stepGated, hw]
            rw [hstep]
            exact gatedWf_setPC s i .working .sendingEnable ⟨h1, h2, h3, h4⟩ hw rfl
        | sendingEnable =>
            by_cases hr : s.receiverAttached = true
            · have hstep : stepGated s (.workerStep i) =
                  { s with queue := s.queue ++ [(i, true)],
                           sendLog := s.sendLog ++ [(i, true)],
                           workers := s.workers.set i PC.done } := by
                simp [stepGated, hw, channelSendRes, hr]
              rw [hstep]
              exact gatedWf_send s i true .sendingEnable .done ⟨h1, h2, h3, h4⟩ hw rfl
            · have hr' : s.receiverAttached = false := by simpa using hr
              have hstep : stepGated s (.workerStep i) =
                  { s with workers := s.workers.set i PC.panickedAtEnable } := by
                simp [stepGated, hw, channelSendRes, hr']
              rw [hstep]
              exact gatedWf_setPC s i .sendingEnable .panickedAtEnable ⟨h1, h2, h3, h4⟩ hw rfl
        | done =>
            have hstep : stepGated s (.workerStep i) = s := by
              simp [stepGated, hw]
            rw [hstep]
            exact ⟨h1, h2, h3, h4⟩
        | panickedAtDisable =>
            have hstep : stepGated s (.workerStep i) = s := by
              simp [stepGated, hw]
            rw [hstep]
            exact ⟨h1, h2, h3, h4⟩
        | panickedAtEnable =>
            have hstep : stepGated s (.workerStep i) = s := by
              simp [stepGated, hw]
            rw [hstep]
            exact ⟨h1, h2, h3, h4⟩
  | deliver =>
      by_cases hr : s.receiverAttached = true
      · rcases hq : s.queue with _ | ⟨m, rest⟩
        · have hstep : stepGated s .deliver = s := by
            simp [stepGated, hr, hq]
          rw [hstep]
          exact ⟨h1, h2, h3, h4⟩
        · by_cases ha : s.buttonAlive = true
          · have hstep : stepGated s .deliver =
                { s with sensitive := m.2, handlerLog := s.handlerLog ++ [m],
                         queue := rest, receiverAttached := true,
                         consumedLog := s.consumedLog ++ [m] } := by
              simp [stepGated, hr, hq, gatedAttachClosure, ha]
            rw [hstep]
            refine ⟨?_, ?_, ?_, h4⟩
            · rw [h1, hq]
              simp
            · intro _
              rw [h2 hr]
            · rw [h2 hr]
          · have ha' : s.buttonAlive = false := by simpa using ha
            have hstep : stepGated s .deliver =
                { s with queue := rest, receiverAttached := false,
                         consumedLog := s.consumedLog ++ [m] } := by
              simp [stepGated, hr, hq, gatedAttachClosure, ha']
            rw [hstep]
            refine ⟨?_, ?_, ?_, h4⟩
            · rw [h1, hq]
              simp
            · intro hcontra
              exact absurd hcontra (by simp)
            · exact h3.trans (List.prefix_append _ [m])
      · have hr' : s.receiverAttached = false := by simpa using hr
        have hstep : stepGated s .deliver = s := by
          simp [stepGated, hr']
        rw [hstep]
        exact ⟨h1, h2, h3, h4⟩
  | destroyButton =>
      exact ⟨h1, h2, h3, h4⟩

/-- The history invariant holds in every reachable state of the
gated-offload demo. -/
theorem gatedWf_run (t : List GatedEvent) : GatedWf (runGated t) := by
  have hfold : ∀ s, GatedWf s → GatedWf (t.foldl stepGated s) := by
    induction t with
    | nil => exact fun s h => h
    | cons e t ih => exact fun s h => ih _ (gatedWf_step s e h)
  refine hfold initGated ⟨rfl, fun _ => rfl, List.prefix_refl _, fun i => ?_⟩
  simp [initGated, senderLog, pcSent]

/-- C4: the notification channel is FIFO per sender.  Along every event
trace, the sequence of payloads with which the attached handler is
invoked on behalf of worker `i` is a prefix of `[false, true]`, the
worker's send order: the handler can never see the enable `true` before
the disable `false`, nor see either payload twice. -/
theorem gated_c4_fifo_per_sender (t : List GatedEvent) (i : Nat) :
    senderLog i (runGated t).handlerLog <+: [false, true] := by
  obtain ⟨h1, h2, h3, h4⟩ := gatedWf_run t
  have hcs : (runGated t).consumedLog <+: (runGated t).sendLog :=
    ⟨(runGated t).queue, h1.symm⟩
  have hhs : (runGated t).handlerLog <+: (runGated t).sendLog := h3.trans hcs
  have hp : senderLog i (runGated t).handlerLog <+: senderLog i (runGated t).sendLog := by
    simpa [senderLog] using
      ((hhs.filter (fun m : Nat × Bool => m.1 == i)).map Prod.snd)
  rw [h4 i] at hp
  refine hp.trans ?_
  rcases (runGated t).workers[i]? with _ | pc
  · exact ⟨[false, true], rfl⟩
  · cases pc <;> decide

/-! ## Cooperative suspend: `build_app_with_async_button`

The click handler (src/main.rs lines 126-138) calls
`MainContext::default().spawn_local` on an async block built by
`clone!(@weak button => async move { button.set_sensitive(false);
timeout_future_seconds(10).await; button.set_sensitive(true); })`.
The spawned task runs on the dispatcher thread: its first poll upgrades
the weak reference (skipping the whole body if the button is gone, as the
`clone!` macro generates), runs the body to the `await`, and suspends on
the glib timeout source; the timeout source resumes it once the requested
interval has elapsed on the dispatcher clock.  The upgraded reference is
a strong one held across the `await`, so the button cannot be finalized
while a task is suspended. -/

/-- Phase of one task spawned by `spawn_local`: queued but not yet
polled; suspended at the `await` with the clock value at suspension and
the timeout deadline; completed; or skipped whole because the weak
reference was already dead at the first poll. -/
inductive APhase
  | notStarted
  | suspended (startedAt deadline : Nat)
  | done
  | skipped
deriving DecidableEq

/-- State of the cooperative-suspend demo: the button, the dispatcher
clock (in seconds), the spawned tasks (index = spawn order), and the
number of OS threads ever spawned (the source spawns none). -/
structure AsyncState where
  sensitive : Bool
  buttonAlive : Bool
  clock : Nat
  tasks : List APhase
  osThreads : Nat
deriving DecidableEq

/-- Initial state of the cooperative-suspend demo. -/
def initAsync : AsyncState :=
  { sensitive := true, buttonAlive := true, clock := 0, tasks := [], osThreads := 0 }

/-- Atomic dispatcher events of the cooperative-suspend demo: a user
click, the first poll of task `i`, the timeout source resuming task `i`,
one second of dispatcher wall-clock time, and button destruction. -/
inductive AsyncEvent
  | click
  | poll (i : Nat)
  | fire (i : Nat)
  | tick
  | destroyButton
deriving DecidableEq

/-- Whether a task is suspended at its `await`. -/
def isSuspended : APhase → Bool
  | .suspended _ _ => true
  | _ => false

/-- A suspended task holds the strong reference produced by upgrading the
weak one at the start of the async block. -/
def holdsStrongRef (s : AsyncState) : Bool := s.tasks.any isSuspended

/-- One atomic step of the cooperative-suspend demo.  A click on a live,
sensitive button runs the `connect_clicked` closure, whose only effect is
`spawn_local`: it queues one local task and changes nothing else — in
particular a second click dispatched before the first task's poll spawns
a second task.  The first poll of a task is the `clone!` weak-reference
upgrade: on success the body runs to its `await` (`set_sensitive(false)`,
schedule the timeout at `clock + 10`); on a dead reference the whole body
is skipped.  The timeout fires only once its deadline has been reached,
running the rest of the body (`set_sensitive(true)`); a button cannot be
destroyed while a suspended task holds a strong reference to it. -/
def stepAsync (s : AsyncState) : AsyncEvent → AsyncState
  | .click =>
      if s.sensitive && s.buttonAlive then
        { s with tasks := s.tasks ++ [APhase.notStarted] }
      else s
  | .poll i =>
      match s.tasks[i]? with
      | some .notStarted =>
          if s.buttonAlive then
            { s with sensitive := false,
                     tasks := s.tasks.set i
                       (APhase.suspended s.clock (s.clock + timedWorkSecs)) }
          else { s with tasks := s.tasks.set i APhase.skipped }
      | _ => s
  | .fire i =>
      match s.tasks[i]? with
      | some (.suspended _ d) =>
          if d ≤ s.clock then
            { s with sensitive := true, tasks := s.tasks.set i APhase.done }
          else s
      | _ => s
  | .tick => { s with clock := s.clock + 1 }
  | .destroyButton =>
      if holdsStrongRef s then s else { s with buttonAlive := false }

/-- Run the cooperative-suspend demo on a trace of events from the
initial state. -/
def runAsync (t : List AsyncEvent) : AsyncState :=
  t.foldl stepAsync initAsync

/-- Deadline invariant of the cooperative-suspend demo: every suspended
task's deadline is exactly its suspension clock plus the timeout
interval. -/
def AsyncWf (s : AsyncState) : Prop :=
  ∀ (i a d : Nat), s.tasks[i]? = some (.suspended a d) → d = a + timedWorkSecs

/-- Every step of the cooperative-suspend system preserves the deadline
invariant. -/
theorem asyncWf_step (s : AsyncState) (e : AsyncEvent) (h : AsyncWf s) :
    AsyncWf (stepAsync s e) := by
  cases e with
  | click =>
      by_cases hc : (s.sensitive && s.buttonAlive) = true
      · have hstep : stepAsync s .click =
            { s with tasks := s.tasks ++ [APhase.notStarted] } := by
          simp [stepAsync, hc]
        rw [hstep]
        intro i a d hi
        rcases Nat.lt_trichotomy i s.tasks.length with hlt | heq | hgt
        · rw [List.getElem?_append_left hlt] at hi
          exact h i a d hi
        · exfalso
          rw [heq] at hi
          have happ : (s.tasks ++ [APhase.notStarted])[s.tasks.length]? =
              some APhase.notStarted := by simp
          rw [happ] at hi
          exact APhase.noConfusion (Option.some.inj hi)
        · exfalso
          have hnone : (s.tasks ++ [APhase.notStarted])[i]? = none := by
            refine List.getElem?_eq_none ?_
            simp only [List.length_append, List.length_cons, List.length_nil]
            omega
          rw [hnone] at hi
          exact Option.noConfusion hi
      · have hstep : stepAsync s .click = s := by
          simp [stepAsync, hc]
        rw [hstep]
        exact h
  | poll i0 =>
      rcases hw : s.tasks[i0]? with _ | p
      · have hstep : stepAsync s (.poll i0) = s := by
          simp [stepAsync, hw]
        rw [hstep]
        exact h
      · have hlt : i0 < s.tasks.length := by
          rcases List.getElem?_eq_some.1 hw with ⟨hlt, _⟩
          exact hlt
        cases p with
        | notStarted =>
            by_cases ha : s.buttonAlive = true
            · have hstep : stepAsync s (.poll i0) =
                  { s with sensitive := false,
                           tasks := s.tasks.set i0
                             (APhase.suspended s.clock (s.clock + timedWorkSecs)) } := by
                simp [stepAsync, hw, ha]
              rw [hstep]
              intro i a d hi
              by_cases hi0 : i = i0
              · subst hi0
                rw [List.getElem?_set_self hlt] at hi
                cases Option.some.inj hi
                rfl
              · rw [List.getElem?_set_ne (fun hc => hi0 hc.symm)] at hi
                exact h i a d hi
            · have ha' : s.buttonAlive = false := by simpa using ha
              have hstep : stepAsync s (.poll i0) =
                  { s with tasks := s.tasks.set i0 APhase.skipped } := by
                simp [stepAsync, hw, ha']
              rw [hstep]
              intro i a d hi
              by_cases hi0 : i = i0
              · exfalso
                subst hi0
                rw [List.getElem?_set_self hlt] at hi
                exact APhase.noConfusion (Option.some.inj hi)
              · rw [List.getElem?_set_ne (fun hc => hi0 hc.symm)] at hi
                exact h i a d hi
        | suspended a d =>
            have hstep : stepAsync s (.poll i0) = s := by
              simp [stepAsync, hw]
            rw [hstep]
            exact h
        | done =>
            have hstep : stepAsync s (.poll i0) = s := by
              simp [stepAsync, hw]
            rw [hstep]
            exact h
        | skipped =>
            have hstep : stepAsync s (.poll i0) = s := by
              simp [stepAsync, hw]
            rw [hstep]
            exact h
  | fire i0 =>
      rcases hw : s.tasks[i0]? with _ | p
      · have hstep : stepAsync s (.fire i0) = s := by
          simp [stepAsync, hw]
        rw [hstep]
        exact h
      · have hlt : i0 < s.tasks.length := by
          rcases List.getElem?_eq_some.1 hw with ⟨hlt, _⟩
          exact hlt
        cases p with
        | suspended a0 d0 =>
            by_cases hd : d0 ≤ s.clock
            · have hstep : stepAsync s (.fire i0) =
                  { s with sensitive := true,
                           tasks := s.tasks.set i0 APhase.done } := by
                simp [stepAsync, hw, hd]
              rw [hstep]
              intro i a d hi
              by_cases hi0 : i = i0
              · exfalso
                subst hi0
                rw [List.getElem?_set_self hlt] at hi
                exact APhase.noConfusion (Option.some.inj hi)
              · rw [List.getElem?_set_ne (fun hc => hi0 hc.symm)] at hi
                exact h i a d hi
            · have hstep : stepAsync s (.fire i0) = s := by
                simp [stepAsync, hw, hd]
              rw [hstep]
              exact h
        | notStarted =>
            have hstep : stepAsync s (.fire i0) = s := by
              simp [stepAsync, hw]
            rw [hstep]
            exact h
        | done =>
            have hstep : stepAsync s (.fire i0) = s := by
              simp [stepAsync, hw]
            rw [hstep]
            exact h
        | skipped =>
            have hstep : stepAsync s (.fire i0) = s := by
              simp [stepAsync, hw]
            rw [hstep]
            exact h
  | tick =>
      exact h
  | destroyButton =>
      simp only [stepAsync]
      split
      · exact h
      · exact h

/-- The deadline invariant holds in every reachable state of the
cooperative-suspend demo. -/
theorem asyncWf_run (t : List AsyncEvent) : AsyncWf (runAsync t) := by
  have hfold : ∀ s, AsyncWf s → AsyncWf (t.foldl stepAsync s) := by
    induction t with
    | nil => exact fun s h => h
    | cons e t ih => exact fun s h => ih _ (asyncWf_step s e h)
  refine hfold initAsync ?_
  intro i a d hi
  simp [initAsync] at hi

/-- No step of the cooperative-suspend demo spawns an OS thread: the
thread count is invariant. -/
theorem stepAsync_osThreads (s : AsyncState) (e : AsyncEvent) :
    (stepAsync s e).osThreads = s.osThreads := by
  cases e with
  | click =>
      simp only [stepAsync]
      split <;> rfl
  | poll i =>
      simp only [stepAsync]
      split
      · split <;> rfl
      · rfl
  | fire i =>
      simp only [stepAsync]
      split
      · split <;> rfl
      · rfl
  | tick => rfl
  | destroyButton =>
      simp only [stepAsync]
      split <;> rfl

/-- The cooperative-suspend demo never spawns an OS thread along any
trace. -/
theorem runAsync_osThreads (t : List AsyncEvent) : (runAsync t).osThreads = 0 := by
  have hfold : ∀ s : AsyncState, s.osThreads = 0 →
      (t.foldl stepAsync s).osThreads = 0 := by
    induction t with
    | nil => exact fun s h => h
    | cons e t ih => exact fun s h => ih _ ((stepAsync_osThreads s e).trans h)
  exact hfold initAsync rfl

/-- The dispatcher clock never decreases: no step blocks it backwards,
and only an explicit tick advances it. -/
theorem stepAsync_clock_mono (s : AsyncState) (e : AsyncEvent) :
    s.clock ≤ (stepAsync s e).clock := by
  cases e with
  | click =>
      simp only [stepAsync]
      split <;> exact Nat.le_refl _
  | poll i =>
      simp only [stepAsync]
      split
      · split <;> exact Nat.le_refl _
      · exact Nat.le_refl _
  | fire i =>
      simp only [stepAsync]
      split
      · split <;> exact Nat.le_refl _
      · exact Nat.le_refl _
  | tick => exact Nat.le_succ _
  | destroyButton =>
      simp only [stepAsync]
      split <;> exact Nat.le_refl _

/-- C6: the cooperative timer delivers exactly one resumption, only after
the requested interval.  In every reachable state a suspended task's
deadline is its suspension clock plus 10 s (conjunct 1); the timeout
source does nothing while the dispatcher clock is below the deadline
(conjunct 2); once the deadline is reached the suspension is resumed and
the task completed in one dispatcher step (conjunct 3); a completed task
is never resumed again (conjunct 4); and the dispatcher clock is
monotone, so the resumption happens at least 10 s of dispatcher
wall-clock after the suspend call (conjunct 5).  Resumptions run on the
dispatcher as atomic steps of the single-threaded transition system,
never concurrently with another callback. -/
theorem async_c6_timer_resumes_once_after_deadline :
    (∀ (t : List AsyncEvent) (i a d : Nat),
      (runAsync t).tasks[i]? = some (.suspended a d) → d = a + timedWorkSecs) ∧
    (∀ (s : AsyncState) (i a d : Nat), s.tasks[i]? = some (.suspended a d) →
      s.clock < d → stepAsync s (.fire i) = s) ∧
    (∀ (s : AsyncState) (i a d : Nat), s.tasks[i]? = some (.suspended a d) →
      d ≤ s.clock →
      stepAsync s (.fire i) =
        { s with sensitive := true, tasks := s.tasks.set i APhase.done }) ∧
    (∀ (s : AsyncState) (i : Nat), s.tasks[i]? = some APhase.done →
      stepAsync s (.fire i) = s) ∧
    (∀ (s : AsyncState) (e : AsyncEvent), s.clock ≤ (stepAsync s e).clock) := by
  refine ⟨?_, ?_, ?_, ?_, stepAsync_clock_mono⟩
  · intro t i a d hi
    exact asyncWf_run t i a d hi
  · intro s i a d hi hclk
    simp [stepAsync, hi, Nat.not_le.mpr hclk]
  · intro s i a d hi hd
    simp [stepAsync, hi, hd]
  · intro s i hi
    simp [stepAsync, hi]

/-- C6, witness: the timer facts at concrete states: a suspension
reached by clicking and polling from the initial state, a premature fire
at clock 3, the real resumption at clock 10, and a second fire on the
completed task. -/
theorem async_c6_timer_resumes_once_after_deadline_witness :
    (10 : Nat) = 0 + timedWorkSecs ∧
    stepAsync { sensitive := false, buttonAlive := true, clock := 3,
                tasks := [APhase.suspended 0 10], osThreads := 0 } (.fire 0) =
      { sensitive := false, buttonAlive := true, clock := 3,
        tasks := [APhase.suspended 0 10], osThreads := 0 } ∧
    stepAsync { sensitive := false, buttonAlive := true, clock := 10,
                tasks := [APhase.suspended 0 10], osThreads := 0 } (.fire 0) =
      { sensitive := true, buttonAlive := true, clock := 10,
        tasks := [APhase.done], osThreads := 0 } ∧
    stepAsync { sensitive := true, buttonAlive := true, clock := 12,
                tasks := [APhase.done], osThreads := 0 } (.fire 0) =
      { sensitive := true, buttonAlive := true, clock := 12,
        tasks := [APhase.done], osThreads := 0 } ∧
    ({ sensitive := false, buttonAlive := true, clock := 5,
       tasks := [APhase.suspended 0 10], osThreads := 0 } : AsyncState).clock ≤
      (stepAsync { sensitive := false, buttonAlive := true, clock := 5,
                   tasks := [APhase.suspended 0 10], osThreads := 0 } .tick).clock :=
  ⟨async_c6_timer_resumes_once_after_deadline.1 [.click, .poll 0] 0 0 10 (by decide),
   async_c6_timer_resumes_once_after_deadline.2.1 _ 0 0 10 (by decide) (by decide),
   async_c6_timer_resumes_once_after_deadline.2.2.1 _ 0 0 10 (by decide) (by decide),
   async_c6_timer_resumes_once_after_deadline.2.2.2.1 _ 0 (by decide),
   async_c6_timer_resumes_once_after_deadline.2.2.2.2 _ .tick⟩

/-- C7 counterexample: the claim that activation disables the control
synchronously at click time, with the enabled flag false from activation
until the work completes, is false on the code.  `spawn_local` only
queues the task, so right after a click the button is still sensitive;
a second click dispatched before the first task's poll spawns a second
task, both suspend, and the resumption of the first sets the flag back
to `true` while the second unit's work is still in flight. -/
theorem async_c7_not_synchronous_counterexample :
    (runAsync [.click]).sensitive = true ∧
    (runAsync [.click, .click, .poll 0, .poll 1]).tasks =
      [APhase.suspended 0 10, APhase.suspended 0 10] ∧
    (runAsync [.click, .click, .poll 0, .poll 1, .tick, .tick, .tick, .tick,
               .tick, .tick, .tick, .tick, .tick, .tick, .fire 0]).sensitive
      = true ∧
    (runAsync [.click, .click, .poll 0, .poll 1, .tick, .tick, .tick, .tick,
               .tick, .tick, .tick, .tick, .tick, .tick, .fire 0]).tasks[1]?
      = some (APhase.suspended 0 10) := by
  decide

/-- C7 amended: in the cooperative-suspend strategy the activation
callback only spawns a local async task — it changes neither the control
nor the clock, so the disable is not synchronous at click time
(conjunct 1); the disable happens at the task's first poll, on the
dispatcher thread, which sets the flag false and suspends on the
cooperative timer without spawning an OS thread and without advancing or
blocking the dispatcher clock (conjunct 2); the timer resumption
re-enables the control in the same step that completes that task's work
(conjunct 3); and no trace of this strategy ever spawns an OS thread
(conjunct 4). -/
theorem async_c7_poll_side_disable :
    (∀ s : AsyncState, s.sensitive = true → s.buttonAlive = true →
      stepAsync s .click = { s with tasks := s.tasks ++ [APhase.notStarted] }) ∧
    (∀ (s : AsyncState) (i : Nat), s.tasks[i]? = some APhase.notStarted →
      s.buttonAlive = true →
      stepAsync s (.poll i) =
        { s with sensitive := false,
                 tasks := s.tasks.set i
                   (APhase.suspended s.clock (s.clock + timedWorkSecs)) }) ∧
    (∀ (s : AsyncState) (i a d : Nat), s.tasks[i]? = some (.suspended a d) →
      d ≤ s.clock →
      stepAsync s (.fire i) =
        { s with sensitive := true, tasks := s.tasks.set i APhase.done }) ∧
    (∀ t : List AsyncEvent, (runAsync t).osThreads = 0) := by
  refine ⟨?_, ?_, ?_, runAsync_osThreads⟩
  · intro s hs ha
    simp [stepAsync, hs, ha]
  · intro s i hw ha
    simp [stepAsync, hw, ha]
  · intro s i a d hi hd
    simp [stepAsync, hi, hd]

/-- C7 amended, witness: the click-then-poll-then-fire lifecycle at
concrete states reached from the initial state. -/
theorem async_c7_poll_side_disable_witness :
    stepAsync initAsync .click =
      { sensitive := true, buttonAlive := true, clock := 0,
        tasks := [APhase.notStarted], osThreads := 0 } ∧
    stepAsync { sensitive := true, buttonAlive := true, clock := 0,
                tasks := [APhase.notStarted], osThreads := 0 } (.poll 0) =
      { sensitive := false, buttonAlive := true, clock := 0,
        tasks := [APhase.suspended 0 10], osThreads := 0 } ∧
    stepAsync { sensitive := false, buttonAlive := true, clock := 10,
                tasks := [APhase.suspended 0 10], osThreads := 0 } (.fire 0) =
      { sensitive := true, buttonAlive := true, clock := 10,
        tasks := [APhase.done], osThreads := 0 } ∧
    (runAsync [.click, .poll 0, .tick, .destroyButton]).osThreads = 0 :=
  ⟨async_c7_poll_side_disable.1 initAsync rfl rfl,
   async_c7_poll_side_disable.2.1 _ 0 (by decide) rfl,
   async_c7_poll_side_disable.2.2.1 _ 0 0 10 (by decide) (by decide),
   async_c7_poll_side_disable.2.2.2 [.click, .poll 0, .tick, .destroyButton]⟩

/-- C10: the async block holds only the weak reference produced by the
`clone!` macro until its first poll.  If the button is already gone when
the block first runs, the whole body is skipped silently: the task is
marked skipped and nothing else changes, in particular no
`set_sensitive` runs and no panic occurs (conjunct 1: the step is a pure
record update of that task's phase); a skipped task never does anything
later (conjunct 2); and while the task is suspended it holds a strong
upgraded reference, so the button cannot be finalized before the
resumption runs (conjunct 3). -/
theorem async_c10_dead_weak_ref_skips_body :
    (∀ (s : AsyncState) (i : Nat), s.tasks[i]? = some APhase.notStarted →
      s.buttonAlive = false →
      stepAsync s (.poll i) = { s with tasks := s.tasks.set i APhase.skipped }) ∧
    (∀ (s : AsyncState) (i : Nat), s.tasks[i]? = some APhase.skipped →
      stepAsync s (.poll i) = s ∧ stepAsync s (.fire i) = s) ∧
    (∀ s : AsyncState, holdsStrongRef s = true → stepAsync s .destroyButton = s) := by
  refine ⟨?_, ?_, ?_⟩
  · intro s i hw hd
    simp [stepAsync, hw, hd]
  · intro s i hw
    exact ⟨by simp [stepAsync, hw], by simp [stepAsync, hw]⟩
  · intro s hsr
    simp [stepAsync, hsr]

/-- C10, witness: a queued task whose button is already dead is skipped
with the `sensitive` flag untouched; the skipped task stays inert; a
suspended task blocks finalization of the button. -/
theorem async_c10_dead_weak_ref_skips_body_witness :
    stepAsync { sensitive := true, buttonAlive := false, clock := 2,
                tasks := [APhase.notStarted], osThreads := 0 } (.poll 0) =
      { sensitive := true, buttonAlive := false, clock := 2,
        tasks := [APhase.skipped], osThreads := 0 } ∧
    (stepAsync { sensitive := true, buttonAlive := false, clock := 2,
                 tasks := [APhase.skipped], osThreads := 0 } (.poll 0) =
      { sensitive := true, buttonAlive := false, clock := 2,
        tasks := [APhase.skipped], osThreads := 0 } ∧
     stepAsync { sensitive := true, buttonAlive := false, clock := 2,
                 tasks := [APhase.skipped], osThreads := 0 } (.fire 0) =
      { sensitive := true, buttonAlive := false, clock := 2,
        tasks := [APhase.skipped], osThreads := 0 }) ∧
    stepAsync { sensitive := false, buttonAlive := true, clock := 4,
                tasks := [APhase.suspended 0 10], osThreads := 0 } .destroyButton =
      { sensitive := false, buttonAlive := true, clock := 4,
        tasks := [APhase.suspended 0 10], osThreads := 0 } :=
  ⟨async_c10_dead_weak_ref_skips_body.1 _ 0 (by decide) rfl,
   async_c10_dead_weak_ref_skips_body.2.1 _ 0 (by decide),
   async_c10_dead_weak_ref_skips_body.2.2 _ (by decide)⟩

/-! ## Blocking strategy: `build_app_with_stuck_behavior`

The click handler (src/main.rs lines 38-42) calls
`std::thread::sleep(Duration::from_secs(10))` inline, on the dispatcher
thread.  It spawns nothing and never touches the button's `sensitive`
flag. -/

/-- State of the blocking demo: the button's `sensitive` flag, the
dispatcher clock (seconds) and the number of OS threads ever spawned. -/
structure BlockingState where
  sensitive : Bool
  clock : Nat
  osThreads : Nat
deriving DecidableEq

/-- Initial state of the blocking demo. -/
def initBlocking : BlockingState :=
  { sensitive := true, clock := 0, osThreads := 0 }

/-- Events of the blocking demo: a click, and one second of idle
dispatcher time. -/
inductive BlockingEvent
  | click
  | tick
deriving DecidableEq

/-- One atomic step of the blocking demo.  The click handler sleeps for
the full 10 seconds inside the dispatcher step: the whole duration
passes with no other event interleaved, which is exactly the freeze the
source comments describe.  No field but the clock changes. -/
def stepBlocking (s : BlockingState) : BlockingEvent → BlockingState
  | .click => if s.sensitive then { s with clock := s.clock + timedWorkSecs } else s
  | .tick => { s with clock := s.clock + 1 }

/-- Run the blocking demo on a trace of events from the initial state. -/
def runBlocking (t : List BlockingEvent) : BlockingState :=
  t.foldl stepBlocking initBlocking

/-- C8: the blocking strategy runs TimedWork inline on the dispatcher.
A click advances the dispatcher clock by the full 10 seconds within a
single atomic step — the dispatcher is blocked for the whole duration,
with no other event processed in between — and the record update touches
only the clock, so no OS thread is spawned and the button's `sensitive`
flag is untouched (conjunct 1); along every trace the flag stays `true`
and the OS-thread count stays zero (conjunct 2). -/
theorem blocking_c8_inline_sleep_on_dispatcher :
    (∀ s : BlockingState, s.sensitive = true →
      stepBlocking s .click = { s with clock := s.clock + timedWorkSecs }) ∧
    (∀ t : List BlockingEvent,
      (runBlocking t).sensitive = true ∧ (runBlocking t).osThreads = 0) := by
  constructor
  · intro s hs
    simp [stepBlocking, hs]
  · intro t
    have hstep : ∀ (s : BlockingState) (e : BlockingEvent),
        (stepBlocking s e).sensitive = s.sensitive ∧
        (stepBlocking s e).osThreads = s.osThreads := by
      intro s e
      cases e with
      | click =>
          simp only [stepBlocking]
          split
          · exact ⟨rfl, rfl⟩
          · exact ⟨rfl, rfl⟩
      | tick => exact ⟨rfl, rfl⟩
    have hfold : ∀ s : BlockingState, s.sensitive = true ∧ s.osThreads = 0 →
        (t.foldl stepBlocking s).sensitive = true ∧
        (t.foldl stepBlocking s).osThreads = 0 := by
      induction t with
      | nil => exact fun s h => h
      | cons e t ih =>
          intro s h
          exact ih _ ⟨(hstep s e).1.trans h.1, (hstep s e).2.trans h.2⟩
    exact hfold initBlocking ⟨rfl, rfl⟩

/-- C8, witness: a click from the initial state jumps the clock by the
full 10 seconds and changes nothing else; the trace conjunct at a
concrete trace. -/
theorem blocking_c8_inline_sleep_on_dispatcher_witness :
    stepBlocking initBlocking .click =
      { sensitive := true, clock := 10, osThreads := 0 } ∧
    ((runBlocking [.tick, .click, .tick]).sensitive = true ∧
     (runBlocking [.tick, .click, .tick]).osThreads = 0) :=
  ⟨blocking_c8_inline_sleep_on_dispatcher.1 initBlocking rfl,
   blocking_c8_inline_sleep_on_dispatcher.2 [.tick, .click, .tick]⟩

/-! ## `main` and the process exit code

src/main.rs lines 11-25: `main` builds the `Application`, pushes the four
build functions into `func_vec`, connects each to the activate signal in
order, and ends with `app.run()`, whose `glib::ExitCode` value is the
value `main` returns. -/

/-- The four demo-variant build functions pushed into `func_vec`, in
source order. -/
inductive BuildFn
  | buildAppWithStuckBehavior
  | buildAppWithNewThread
  | buildAppWithNewTheadAndButtonDisable
  | buildAppWithAsyncButton
deriving DecidableEq

/-- The application object: what matters to the embedding is the ordered
list of activate handlers connected to it. -/
structure Application where
  activateHandlers : List BuildFn
deriving DecidableEq

/-- `Application::builder().application_id(APP_ID).build()`: a fresh
application with no activate handler. -/
def applicationBuild : Application :=
  { activateHandlers := [] }

/-- `app.connect_activate(func)`: registers one more handler, after the
existing ones. -/
def connectActivate (app : Application) (f : BuildFn) : Application :=
  { app with activateHandlers := app.activateHandlers ++ [f] }

/-- The `func_vec` of src/main.rs, in push order. -/
def funcVec : List BuildFn :=
  [.buildAppWithStuckBehavior, .buildAppWithNewThread,
   .buildAppWithNewTheadAndButtonDisable, .buildAppWithAsyncButton]

/-- The application as configured by `main` just before `app.run()`:
every function of `func_vec` connected, in order. -/
def mainApp : Application :=
  funcVec.foldl connectActivate applicationBuild

/-- The value `main` returns, as a function of the dispatcher's `run`:
`main`'s final expression is `app.run()`, so its return value is
whatever `run` yields on the configured application.  `glib::ExitCode`
is embedded as `Int` (it wraps an `i32`). -/
def mainResult (run : Application → Int) : Int :=
  run mainApp

/-- Modelled from the spec: the process exit status is the value `main`
returns (Rust's termination handling of `glib::ExitCode`, outside this
repository's sources): "The process exit code is the dispatcher's
`run()` return value, propagated as the process exit status." -/
def processExitStatus (run : Application → Int) : Int :=
  mainResult run

/-- C9: for every behaviour of the dispatcher's `run`, the value `main`
returns is exactly `run`'s return value on the fully configured
application, and the process exit status is that same value; `main`
registers precisely the four build functions of `func_vec`, in order,
before running. -/
theorem main_c9_exit_code_is_run_value (run : Application → Int) :
    mainResult run = run mainApp ∧
    processExitStatus run = run mainApp ∧
    mainApp.activateHandlers = funcVec :=
  ⟨rfl, rfl, rfl⟩
